import Mathlib

/-!
Shallow embedding of the authoritative game core of the "I Like Trains"
server (src/server/train.py, src/server/game.py, src/server/server.py,
src/server/delivery_zone.py, src/common/base_agent.py, src/common/constants.py)
and proofs of the specified properties.

Modelling conventions:
* Python ints become ℤ (tick counters, positions, scores) or ℕ (loop
  counters); Python float arithmetic is modelled exactly over ℚ.
* Python `int(x)` (truncation toward zero) is `pyInt`; `x // y` on ints is
  `Int.fdiv` (floor division).
* `random.randint` calls are modelled by an explicit oracle (a function
  from the attempt index to the drawn values), making the code's use of
  randomness an input of the model.
* Mutation becomes explicit state passing: methods on `Train` are functions
  `Train → Train` (or return a pair when the method also returns a value);
  methods on `Game` thread the whole game state, because death handling
  mutates several trains at once through the `handle_train_death` callback.
* `dict` attributes keyed by nickname become association lists in insertion
  order, with `alookup` / `aset` / `aerase` mirroring `d[k]`, `d[k] = v`,
  `del d[k]`.
-/

namespace ILikeTrains

/-- Python `int(q)` on a float value: truncation toward zero.  On ℚ this is
exactly `q.num / q.den` with Lean's T-division on ℤ. -/
def pyInt (q : ℚ) : ℤ := q.num / q.den

/-- src/common/constants.py: `REFERENCE_TICK_RATE: int = 60`. -/
def REFERENCE_TICK_RATE : ℤ := 60

/-- src/server/train.py line 23: `INITIAL_SPEED = 10`. -/
def INITIAL_SPEED : ℚ := 10

/-- src/server/train.py line 25: `SPEED_DECREMENT_COEFFICIENT = 0.95`. -/
def SPEED_DECREMENT_COEFFICIENT : ℚ := 95 / 100

/-- src/server/train.py line 27: `ACTIVATE_SPEED_BOOST = True`. -/
def ACTIVATE_SPEED_BOOST : Bool := true

/-- src/server/train.py line 28: `BOOST_DURATION = 0.25` (seconds). -/
def BOOST_DURATION : ℚ := 1 / 4

/-- src/server/train.py line 29: `BOOST_COOLDOWN_DURATION = 10.0` (seconds). -/
def BOOST_COOLDOWN_DURATION : ℚ := 10

/-- src/server/train.py line 30: `BOOST_INTENSITY = 3`. -/
def BOOST_INTENSITY : ℚ := 3

/-- Modelled from the spec: `common/move.py` is absent from src (only the
importing call sites remain).  The spec describes "the four-way movement deltas";
`Move.RIGHT.value` is taken as the unit delta (1, 0). -/
def MOVE_RIGHT : ℤ × ℤ := (1, 0)

/-- The server-side train entity (src/server/train.py, class `Train`).
The `_dirty` dictionary becomes one Boolean field per key; `"speed"` is
included because `update_speed` writes it (it is never read back by
`to_dict`).  `handle_death` is not a field: death handling is performed at
the `Game` level, where the Python callback lands. -/
structure Train where
  nickname : String
  position : ℤ × ℤ
  wagons : List (ℤ × ℤ)
  new_direction : ℤ × ℤ
  direction : ℤ × ℤ
  previous_direction : ℤ × ℤ
  alive : Bool
  score : ℤ
  best_score : ℤ
  color : ℕ
  move_timer : ℕ
  speed : ℚ
  last_position : ℤ × ℤ
  tick_rate : ℚ
  reference_tick_rate : ℚ
  current_tick : ℤ
  speed_boost_active : Bool
  speed_boost_timer : ℚ
  boost_cooldown_active : Bool
  start_boost_cooldown_tick : ℤ
  boost_cooldown_ticks : ℤ
  normal_speed : ℚ
  dirty_position : Bool
  dirty_wagons : Bool
  dirty_direction : Bool
  dirty_score : Bool
  dirty_color : Bool
  dirty_alive : Bool
  dirty_boost_cooldown_active : Bool
  dirty_speed : Bool
deriving DecidableEq

/-- `Train.__init__` (src/server/train.py lines 34-70). -/
def Train.init (x y : ℤ) (nickname : String) (color : ℕ)
    (tick_rate reference_tick_rate : ℚ) : Train where
  nickname := nickname
  position := (x, y)
  wagons := []
  new_direction := MOVE_RIGHT
  direction := MOVE_RIGHT
  previous_direction := MOVE_RIGHT
  alive := true
  score := 0
  best_score := 0
  color := color
  move_timer := 0
  speed := INITIAL_SPEED
  last_position := (x, y)
  tick_rate := tick_rate
  reference_tick_rate := reference_tick_rate
  current_tick := 0
  speed_boost_active := false
  speed_boost_timer := 0
  boost_cooldown_active := false
  start_boost_cooldown_tick := 0
  boost_cooldown_ticks := 0
  normal_speed := INITIAL_SPEED
  dirty_position := true
  dirty_wagons := true
  dirty_direction := true
  dirty_score := true
  dirty_color := true
  dirty_alive := true
  dirty_boost_cooldown_active := true
  dirty_speed := false

/-- `Train.is_opposite_direction` (lines 76-81): compares the requested
delta against the *current* direction, component-wise negated. -/
def Train.is_opposite_direction (t : Train) (nd : ℤ × ℤ) : Bool :=
  decide (nd.1 = -t.direction.1 ∧ nd.2 = -t.direction.2)

/-- `Train.change_direction` (lines 83-86): stores the pending heading only
when it is not the exact reverse of the current heading. -/
def Train.change_direction (t : Train) (nd : ℤ × ℤ) : Train :=
  if t.is_opposite_direction nd then t else { t with new_direction := nd }

/-- `Train.set_position` (lines 279-283). -/
def Train.set_position (t : Train) (new_position : ℤ × ℤ) : Train :=
  if t.position ≠ new_position then
    { t with position := new_position, dirty_position := true }
  else t

/-- `Train.set_direction` (lines 285-290). -/
def Train.set_direction (t : Train) (d : ℤ × ℤ) : Train :=
  if t.direction ≠ d then
    { t with previous_direction := t.direction, direction := d,
             dirty_direction := true }
  else t

/-- `Train.set_alive` (lines 300-304). -/
def Train.set_alive (t : Train) (a : Bool) : Train :=
  if t.alive ≠ a then { t with alive := a, dirty_alive := true } else t

/-- `Train.update_speed` (lines 196-198). -/
def Train.update_speed (t : Train) : Train :=
  { t with speed := INITIAL_SPEED * SPEED_DECREMENT_COEFFICIENT ^ t.wagons.length,
           dirty_speed := true }

/-- `Train.update_score` (lines 292-298): conditional score write, then an
unconditional `update_speed`. -/
def Train.update_score (t : Train) (new_score : ℤ) : Train :=
  let t := if t.score ≠ new_score then
    { t with score := new_score, dirty_score := true } else t
  t.update_speed

/-- `Train.add_wagons` (lines 129-134): appends `last_position` `nb` times,
marks the trail dirty, recomputes the speed. -/
def Train.add_wagons (t : Train) (nb_wagons : ℕ) : Train :=
  let t := { t with wagons := t.wagons ++ List.replicate nb_wagons t.last_position,
                    dirty_wagons := true }
  t.update_speed

/-- `Train.pop_wagon` (lines 136-142): removes and returns the tail cell,
or returns `none` leaving the train untouched when the trail is empty. -/
def Train.pop_wagon (t : Train) : Option (ℤ × ℤ) × Train :=
  match t.wagons.getLast? with
  | none => (none, t)
  | some w => (some w, { t with wagons := t.wagons.dropLast, dirty_wagons := true })

/-- `Train.clear_wagons` (lines 144-147). -/
def Train.clear_wagons (t : Train) : Train :=
  ({ t with wagons := [], dirty_wagons := true } : Train).update_speed

/-- `Train.drop_wagon` (lines 149-183): boosted drop of the tail segment.
Fires only when the train is alive, the boost feature is on, no boost and
no boost cooldown are active, and the trail is non-empty; returns the
vacated tail cell. -/
def Train.drop_wagon (t : Train) : Option (ℤ × ℤ) × Train :=
  if ¬ t.alive then (none, t)
  else
    match t.wagons.getLast? with
    | none => (none, t)
    | some last_wagon_pos =>
      if ACTIVATE_SPEED_BOOST ∧ ¬ t.boost_cooldown_active ∧ ¬ t.speed_boost_active then
        (some last_wagon_pos,
          { t with wagons := t.wagons.dropLast,
                   dirty_wagons := true,
                   normal_speed := t.speed,
                   speed := t.speed * BOOST_INTENSITY,
                   speed_boost_active := true,
                   speed_boost_timer := BOOST_DURATION,
                   boost_cooldown_active := true,
                   start_boost_cooldown_tick := t.current_tick,
                   dirty_boost_cooldown_active := true })
      else (none, t)

/-- `Train.get_boost_cooldown_ticks` (lines 193-194):
`int(BOOST_COOLDOWN_DURATION * self.reference_tick_rate)` — note that the
boost duration is NOT included here. -/
def Train.get_boost_cooldown_ticks (t : Train) : ℤ :=
  pyInt (BOOST_COOLDOWN_DURATION * t.reference_tick_rate)

/-- `Train.get_boost_cooldown_time` (lines 185-191): remaining boost
cooldown in ticks (the Python value is a tick count, despite the name). -/
def Train.get_boost_cooldown_time (t : Train) : ℤ :=
  if t.boost_cooldown_active then
    max 0 (t.get_boost_cooldown_ticks - (t.current_tick - t.start_boost_cooldown_tick))
  else 0

/-- Speed-boost timer management, `Train.update` lines 95-102: decrement
the boost timer by one reference-tick of seconds; when it crosses zero the
boost ends and the speed reverts to `normal_speed`. -/
def Train.boost_timer_step (t : Train) : Train :=
  if t.speed_boost_active then
    let timer := t.speed_boost_timer - 1 / t.reference_tick_rate
    if timer ≤ 0 then
      { t with speed_boost_timer := timer, speed_boost_active := false,
               speed := t.normal_speed }
    else { t with speed_boost_timer := timer }
  else t

/-- Boost-cooldown management, `Train.update` lines 106-115: the cooldown
window lasts `int((BOOST_COOLDOWN_DURATION + BOOST_DURATION) * reference_tick_rate)`
ticks from `start_boost_cooldown_tick`. -/
def Train.cooldown_step (t : Train) : Train :=
  if t.boost_cooldown_active then
    let ticks_elapsed := t.current_tick - t.start_boost_cooldown_tick
    let required_ticks := pyInt ((BOOST_COOLDOWN_DURATION + BOOST_DURATION) * t.reference_tick_rate)
    if ticks_elapsed ≥ required_ticks then
      { t with boost_cooldown_active := false, dirty_boost_cooldown_active := true }
    else t
  else t

/-- The new head cell computed by `Train.move` (lines 215-217):
`(x + dx * cell_size, y + dy * cell_size)`. -/
def Train.next_position (t : Train) (cell_size : ℤ) : ℤ × ℤ :=
  (t.position.1 + t.direction.1 * cell_size, t.position.2 + t.direction.2 * cell_size)

/-- `Train.reset` (lines 356-370): off-grid sentinel position, empty trail,
headings back to RIGHT, every serializer dirty bit set. -/
def Train.reset (t : Train) : Train :=
  { t with position := (-1, -1),
           wagons := [],
           direction := MOVE_RIGHT,
           new_direction := MOVE_RIGHT,
           previous_direction := MOVE_RIGHT,
           dirty_position := true,
           dirty_wagons := true,
           dirty_direction := true,
           dirty_score := true,
           dirty_color := true,
           dirty_alive := true,
           dirty_boost_cooldown_active := true }

/-! ## Association-list model of Python dicts keyed by nickname -/

/-- `d.get(k)` / `k in d` on a dict modelled as an assoc list. -/
def alookup {α : Type} : List (String × α) → String → Option α
  | [], _ => none
  | (k, v) :: rest, n => if k = n then some v else alookup rest n

/-- `d[k] = v`: update in place when the key exists, append otherwise
(Python dicts preserve insertion order). -/
def aset {α : Type} (l : List (String × α)) (k : String) (v : α) : List (String × α) :=
  if (alookup l k).isSome then
    l.map (fun p => if p.1 = k then (k, v) else p)
  else l ++ [(k, v)]

/-- `del d[k]`. -/
def aerase {α : Type} (l : List (String × α)) (k : String) : List (String × α) :=
  l.filter (fun p => p.1 ≠ k)

@[simp] theorem alookup_nil {α : Type} (n : String) : alookup ([] : List (String × α)) n = none := rfl

@[simp] theorem alookup_cons {α : Type} (k : String) (v : α) (rest : List (String × α)) (n : String) :
    alookup ((k, v) :: rest) n = if k = n then some v else alookup rest n := rfl

/-- src/server/game.py line 20-30. -/
def ORIGINAL_GAME_WIDTH : ℤ := 400

def ORIGINAL_GAME_HEIGHT : ℤ := 400

def ORIGINAL_GRID_NB : ℤ := 20

/-- `CELL_SIZE = int(ORIGINAL_GAME_WIDTH / ORIGINAL_GRID_NB)` = 20. -/
def CELL_SIZE : ℤ := pyInt ((ORIGINAL_GAME_WIDTH : ℚ) / (ORIGINAL_GRID_NB : ℚ))

/-- src/server/game.py line 25: `TRAINS_PASSENGER_RATIO = 1.0`; the code
only ever uses it as the divisor in `len(...) // TRAINS_PASSENGER_RATIO`,
so it is modelled as the natural number 1 (the name is shortened). -/
def TRAINS_PER_PASSENGER : ℕ := 1

/-- src/server/game.py line 35. -/
def SPAWN_SAFE_ZONE : ℤ := 3

/-- The delivery rectangle (src/server/delivery_zone.py). Its randomized
constructor is irrelevant to the claims; only the stored bounds and
`contains` are embedded. -/
structure DeliveryZone where
  x : ℤ
  y : ℤ
  width : ℤ
  height : ℤ
deriving DecidableEq

/-- `DeliveryZone.contains` (src/server/delivery_zone.py lines 56-63). -/
def DeliveryZone.contains (z : DeliveryZone) (p : ℤ × ℤ) : Bool :=
  decide (p.1 ≥ z.x ∧ p.1 < z.x + z.width ∧ p.2 ≥ z.y ∧ p.2 < z.y + z.height)

/-- Modelled from the spec: `server/passenger.py` is absent from src.  The
spec gives a Passenger `position` and `value`; the server-side creation
sites visible in src (src/server/server.py lines 644-647,
src/server/ai_client.py lines 46-51) overwrite both fields right after
construction, setting `value = 1`. -/
structure Passenger where
  position : ℤ × ℤ
  value : ℕ
deriving DecidableEq

/-- The per-match simulation state (src/server/game.py, class `Game`).
`passenger_oracle`/`oracle_idx` stand for the randomized placement a new
`Passenger(game)` would draw (the Passenger class itself is missing from
src and is modelled from the spec: "placed randomly").
`cooldown_notifications` records the `send_cooldown_notification` calls
(nickname, cooldown seconds, death reason) that `send_cooldown` emits, so
that death reasons are observable in the model. -/
structure Game where
  trains : List (String × Train)
  passengers : List Passenger
  best_scores : List (String × ℤ)
  train_death_ticks : List (String × ℤ)
  last_delivery_ticks : List (String × ℤ)
  desired_passengers : ℕ
  current_tick : ℤ
  game_width : ℤ
  game_height : ℤ
  cell_size : ℤ
  delivery_zone : DeliveryZone
  config_tick_rate : ℚ
  respawn_cooldown_seconds : ℚ
  delivery_cooldown_seconds : ℚ
  passenger_oracle : ℕ → ℤ × ℤ
  oracle_idx : ℕ
  cooldown_notifications : List (String × ℚ × String)
  dirty_trains : Bool
  dirty_size : Bool
  dirty_cell_size : Bool
  dirty_passengers : Bool
  dirty_delivery_zone : Bool
  dirty_best_scores : Bool

/-- `self.trains.get(nickname)`. -/
def Game.getTrain (g : Game) (nick : String) : Option Train :=
  alookup g.trains nick

/-- Writing back the in-place mutation of the train object stored under a
nickname key. -/
def Game.setTrain (g : Game) (nick : String) (t : Train) : Game :=
  { g with trains := g.trains.map (fun p => if p.1 = nick then (nick, t) else p) }

/-- `Game.contains_train` (src/server/game.py lines 343-345). -/
def Game.contains_train (g : Game) (nick : String) : Bool :=
  (alookup g.trains nick).isSome

/-- Appends one freshly constructed `Passenger(game)` (modelled from the
spec: position drawn from the oracle, value 1) and marks the passenger
list dirty, as one iteration of the `while` loop of
`update_passengers_count` does. -/
def Game.add_oracle_passenger (g : Game) : Game :=
  { g with passengers := g.passengers ++ [⟨g.passenger_oracle g.oracle_idx, 1⟩],
           oracle_idx := g.oracle_idx + 1,
           dirty_passengers := true }

/-- The `while len(self.passengers) < self.desired_passengers` top-up loop,
unrolled by the known deficit. -/
def Game.add_passengers (g : Game) : ℕ → Game
  | 0 => g
  | n + 1 => Game.add_passengers g.add_oracle_passenger n

/-- `Game.update_passengers_count` (src/server/game.py lines 221-243):
desired count is the number of trains whose nickname is a key of
`self.trains` (floor-divided by `TRAINS_PASSENGER_RATIO = 1`), and the
deficit is topped up with freshly placed passengers. -/
def Game.update_passengers_count (g : Game) : Game :=
  let desired :=
    (g.trains.filter (fun p => g.contains_train p.2.nickname)).length / TRAINS_PER_PASSENGER
  let g := { g with desired_passengers := desired }
  g.add_passengers (desired - g.passengers.length)

/-- `Game.send_cooldown` (src/server/game.py lines 273-313): records the
death tick, clears the per-train delivery bookkeeping, and notifies the
client of the configured respawn cooldown with the death reason (the
AI-client branch and the log-only respawn arithmetic have no effect on the
modelled state). -/
def Game.send_cooldown (g : Game) (nick : String) (death_reason : String) : Game :=
  if (alookup g.trains nick).isSome then
    { g with train_death_ticks := aset g.train_death_ticks nick g.current_tick,
             last_delivery_ticks := aerase g.last_delivery_ticks nick,
             cooldown_notifications :=
               g.cooldown_notifications ++ [(nick, g.respawn_cooldown_seconds, death_reason)] }
  else g

/-- `Game.handle_train_death` (src/server/game.py lines 315-325): each
named train is marked not-alive, its death is registered and notified, the
passenger count is recomputed, and the train is reset to its sentinel
state. -/
def Game.handle_train_death (g : Game) (nicks : List String) (death_reason : String) : Game :=
  nicks.foldl
    (fun g nick =>
      match alookup g.trains nick with
      | none => g
      | some t =>
        let t1 := t.set_alive false
        let g := g.setTrain nick t1
        let g := g.send_cooldown nick death_reason
        let g := g.update_passengers_count
        g.setTrain nick t1.reset)
    g

/-- `Game.get_train_cooldown` (src/server/game.py lines 327-341): the
remaining respawn cooldown.  `adjusted_cooldown_ticks` is
`int(respawn_cooldown_seconds * tick_rate * (60.0 / tick_rate))`, and the
remaining tick count is returned divided by the CONFIGURED tick rate. -/
def Game.get_train_cooldown (g : Game) (nick : String) : ℚ :=
  match alookup g.train_death_ticks nick with
  | some death_tick =>
    let ticks_elapsed : ℤ := g.current_tick - death_tick
    let standard_tickrate : ℚ := 60
    let tickrate_ratio : ℚ := standard_tickrate / g.config_tick_rate
    let adjusted_cooldown_ticks : ℤ :=
      pyInt (g.respawn_cooldown_seconds * g.config_tick_rate * tickrate_ratio)
    let remaining_ticks : ℤ := max 0 (adjusted_cooldown_ticks - ticks_elapsed)
    (remaining_ticks : ℚ) / g.config_tick_rate
  | none => 0

/-- `Game.get_delivery_cooldown_ticks` (src/server/game.py lines 390-394). -/
def Game.get_delivery_cooldown_ticks (g : Game) : ℤ :=
  pyInt (g.delivery_cooldown_seconds * g.config_tick_rate * (60 / g.config_tick_rate))

/-- `Game.is_position_safe` (src/server/game.py lines 149-191).  The
passenger guard `passenger != self` compares a Passenger with the Game
object and is therefore always true in Python; it is dropped. -/
def Game.is_position_safe (g : Game) (x y : ℤ) : Bool :=
  let safe_distance := g.cell_size * SPAWN_SAFE_ZONE
  if x < safe_distance ∨ y < safe_distance ∨
     x > g.game_width - safe_distance ∨ y > g.game_height - safe_distance then
    false
  else if g.trains.any (fun p =>
      (|p.2.position.1 - x| < safe_distance ∧ |p.2.position.2 - y| < safe_distance : Bool) ||
      p.2.wagons.any (fun w => (|w.1 - x| < safe_distance ∧ |w.2 - y| < safe_distance : Bool))) then
    false
  else if x > g.delivery_zone.x ∧ x < g.delivery_zone.x + g.delivery_zone.width ∧
          y > g.delivery_zone.y ∧ y < g.delivery_zone.y + g.delivery_zone.height then
    false
  else if g.passengers.any (fun p => (x, y) = p.position) then
    false
  else true

/-- The deterministic center fallback of `get_safe_spawn_position`
(src/server/game.py lines 215-219): `(w // 2) // cs * cs` on both axes. -/
def Game.center_spawn (g : Game) : ℤ × ℤ :=
  ((g.game_width.fdiv 2).fdiv g.cell_size * g.cell_size,
   (g.game_height.fdiv 2).fdiv g.cell_size * g.cell_size)

/-- The bounded random search of `Game.get_safe_spawn_position`
(src/server/game.py lines 193-219).  `draws i` stands for the pair of
`random.randint` grid indices drawn on attempt `i`; each candidate is the
drawn index times the cell size. -/
def Game.spawn_search (g : Game) (draws : ℕ → ℤ × ℤ) (i : ℕ) : ℕ → ℤ × ℤ
  | 0 => g.center_spawn
  | fuel + 1 =>
    let c := ((draws i).1 * g.cell_size, (draws i).2 * g.cell_size)
    if g.is_position_safe c.1 c.2 then c else g.spawn_search draws (i + 1) fuel

/-- `Game.get_safe_spawn_position` with its default `max_attempts=100`. -/
def Game.get_safe_spawn_position (g : Game) (draws : ℕ → ℤ × ℤ) : ℤ × ℤ :=
  g.spawn_search draws 0 100

/-! ## Movement, collisions and the per-tick resolution pass -/

/-- The per-other-train loop of `Train.check_collisions_with_trains`
(src/server/train.py lines 318-341), iterating over the values of the
trains dict.  `selfT` is the moving train as it stands after
`set_position` (so `selfT.position` is the new head cell, the value the
wagon check reads).  The function stops at the first collision, exactly as
the Python `return True` does, after applying the corresponding death. -/
def Game.collide_loop (g : Game) (selfT : Train) (new_position : ℤ × ℤ) :
    List (String × Train) → Game
  | [] => g
  | (_, tr) :: rest =>
    if tr.nickname = selfT.nickname ∨ tr.alive = false then
      g.collide_loop selfT new_position rest
    else if new_position = tr.position then
      g.handle_train_death [selfT.nickname, tr.nickname] "collision_with_train"
    else if selfT.position ∈ tr.wagons then
      g.handle_train_death [selfT.nickname] "collision_with_wagon"
    else g.collide_loop selfT new_position rest

/-- `Train.check_collisions_with_trains` (src/server/train.py lines
306-343): self-trail collision first, then the loop over every other live
train's head cell and trail. -/
def Game.check_collisions_with_trains (g : Game) (selfT : Train) (new_position : ℤ × ℤ) : Game :=
  if new_position ∈ selfT.wagons then
    g.handle_train_death [selfT.nickname] "self_collision"
  else g.collide_loop selfT new_position g.trains

/-- `Train.check_out_of_bounds` (src/server/train.py lines 345-354). -/
def Game.check_out_of_bounds (g : Game) (selfT : Train) (new_position : ℤ × ℤ) : Game :=
  if new_position.1 < 0 ∨ new_position.1 ≥ g.game_width ∨
     new_position.2 < 0 ∨ new_position.2 ≥ g.game_height then
    g.handle_train_death [selfT.nickname] "out_of_bounds"
  else g

/-- `Train.move` (src/server/train.py lines 200-233), lifted to the game
because the collision checks run the death callback.  The position is
always a well-formed pair in the model, so the `isinstance` guard on
`last_position` always takes its then-branch. -/
def Game.train_move (g : Game) (nick : String) : Game :=
  match alookup g.trains nick with
  | none => g
  | some t =>
    if ¬ t.alive then g
    else
      let t := { t with last_position := t.position }
      let new_position := t.next_position g.cell_size
      let t := if t.wagons ≠ [] then
        { t with wagons := (t.position :: t.wagons).dropLast, dirty_wagons := true }
      else t
      let t := t.set_position new_position
      let g := g.setTrain nick t
      let g := g.check_collisions_with_trains t new_position
      g.check_out_of_bounds t new_position

/-- `Train.update` (src/server/train.py lines 88-127), lifted to the game.
`current_tick` is recorded first (even on a dead train), then the boost
timer and cooldown are managed, the movement counter is incremented, and
when it crosses `REFERENCE_TICK_RATE / speed` the pending heading is
committed and the train moves.  game.py's call site
(`Game.check_collisions`, line 351) passes the game's tick counter. -/
def Game.train_update (g : Game) (nick : String) (current_tick : ℤ) : Game :=
  match alookup g.trains nick with
  | none => g
  | some t0 =>
    let t := { t0 with current_tick := current_tick }
    if ¬ t.alive then g.setTrain nick t
    else
      let t := t.boost_timer_step
      let t := t.cooldown_step
      let t := { t with move_timer := t.move_timer + 1 }
      if ((t.move_timer : ℚ)) ≥ (REFERENCE_TICK_RATE : ℚ) / t.speed then
        let t := { t with move_timer := 0 }
        let t := t.set_direction t.new_direction
        (g.setTrain nick t).train_move nick
      else g.setTrain nick t

/-- Modelled from the spec: `Passenger.respawn` (server/passenger.py is
absent from src) re-places the passenger at a freshly drawn position. -/
def Game.respawn_passenger (g : Game) (i : ℕ) : Game :=
  { g with passengers := g.passengers.set i ⟨g.passenger_oracle g.oracle_idx, 1⟩,
           oracle_idx := g.oracle_idx + 1,
           dirty_passengers := true }

/-- The passenger-pickup loop of `Game.check_collisions` (src/server/game.py
lines 358-369), with Python's index-based list iteration semantics: the
iterator index advances by one each round, and `list.remove` of the current
element shifts the remainder left (so the element after the removed one is
skipped, exactly as in CPython).  `fuel` only bounds the recursion; it is
called with the current list length, which the loop can never exceed since
the index grows every round and the list never grows. -/
def Game.pickup_go (g : Game) (nick : String) (i : ℕ) : ℕ → Game
  | 0 => g
  | fuel + 1 =>
    if h : i < g.passengers.length then
      let p := g.passengers.get ⟨i, h⟩
      match alookup g.trains nick with
      | none => g
      | some t =>
        if t.position = p.position then
          let t := t.add_wagons p.value
          let g := g.setTrain nick t
          let desired := g.trains.length / TRAINS_PER_PASSENGER
          if g.passengers.length ≤ desired then
            (g.respawn_passenger i).pickup_go nick (i + 1) fuel
          else
            ({ g with passengers := g.passengers.eraseIdx i,
                      dirty_passengers := true } : Game).pickup_go nick (i + 1) fuel
        else g.pickup_go nick (i + 1) fuel
    else g

/-- Entry point of the pickup loop for one train. -/
def Game.pickup_loop (g : Game) (nick : String) : Game :=
  g.pickup_go nick 0 g.passengers.length

/-- The delivery-zone branch of `Game.check_collisions` (src/server/game.py
lines 371-388): when the head cell is inside the zone and the per-train
delivery cooldown has elapsed, pop one trail segment; only if a segment was
actually popped are the score, best-score table and last-delivery tick
updated. -/
def Game.delivery_check (g : Game) (nick : String) : Game :=
  match alookup g.trains nick with
  | none => g
  | some t =>
    if g.delivery_zone.contains t.position then
      if (alookup g.last_delivery_ticks nick) = none ∨
         g.current_tick - ((alookup g.last_delivery_ticks nick).getD 0) ≥
           g.get_delivery_cooldown_ticks then
        let r := t.pop_wagon
        let g := g.setTrain nick r.2
        match r.1 with
        | some _ =>
          let t2 := r.2.update_score (r.2.score + 1)
          let g := g.setTrain nick t2
          let g := if t2.score > (alookup g.best_scores nick).getD 0 then
              { g with best_scores := aset g.best_scores nick t2.score,
                       dirty_best_scores := true }
            else g
          { g with last_delivery_ticks := aset g.last_delivery_ticks nick g.current_tick }
        | none => g
      else g
    else g

/-- `Game.check_collisions` (src/server/game.py lines 347-388): for each
train of the entry snapshot (`list(self.trains.items())`), run its update
(movement + collisions), then the passenger pickup loop, then the delivery
check.  The call `train.update(...)` at line 351 passes the game's tick
counter to `Train.update`. -/
def Game.check_collisions (g : Game) : Game :=
  (g.trains.map Prod.fst).foldl
    (fun g nick =>
      let g := g.train_update nick g.current_tick
      let g := g.pickup_loop nick
      g.delivery_check nick)
    g

/-! ## Dirty-state serialization (diff protocol) -/

/-- The dictionary built by `Train.to_dict` (src/server/train.py lines
235-277): one optional entry per field group. -/
structure TrainDict where
  position : Option (ℤ × ℤ)
  direction : Option (ℤ × ℤ)
  wagons : Option (List (ℤ × ℤ))
  score : Option ℤ
  color : Option ℕ
  alive : Option Bool
  boost_cooldown_active : Option Bool
deriving DecidableEq

/-- The empty train dictionary (`data = {}` before any branch fires). -/
def TrainDict.empty : TrainDict :=
  ⟨none, none, none, none, none, none, none⟩

/-- Python dict truthiness of the `to_dict` result. -/
def TrainDict.isEmpty (d : TrainDict) : Bool :=
  decide (d = TrainDict.empty)

/-- `Train.to_dict` (src/server/train.py lines 235-277): reads each dirty
bit, emits the field when set and clears the bit.  A dirty position also
emits (and clears) the direction.  The wagon validity filter keeps every
wagon, since wagons are well-formed integer pairs by construction in the
model. -/
def Train.to_dict (t : Train) : TrainDict × Train :=
  let d := TrainDict.empty
  let (d, t) := if t.dirty_position then
      ({ d with position := some t.position, direction := some t.direction },
       { t with dirty_position := false, dirty_direction := false })
    else (d, t)
  let (d, t) := if t.dirty_wagons then
      ({ d with wagons := some t.wagons }, { t with dirty_wagons := false })
    else (d, t)
  let (d, t) := if t.dirty_direction then
      ({ d with direction := some t.direction }, { t with dirty_direction := false })
    else (d, t)
  let (d, t) := if t.dirty_score then
      ({ d with score := some t.score }, { t with dirty_score := false })
    else (d, t)
  let (d, t) := if t.dirty_color then
      ({ d with color := some t.color }, { t with dirty_color := false })
    else (d, t)
  let (d, t) := if t.dirty_alive then
      ({ d with alive := some t.alive }, { t with dirty_alive := false })
    else (d, t)
  let (d, t) := if t.dirty_boost_cooldown_active then
      ({ d with boost_cooldown_active := some t.boost_cooldown_active },
       { t with dirty_boost_cooldown_active := false })
    else (d, t)
  (d, t)

/-- The state dictionary built by `Game.get_state` (src/server/game.py
lines 104-147). -/
structure StateDict where
  size : Option (ℤ × ℤ)
  cell_size : Option ℤ
  passengers : Option (List Passenger)
  delivery_zone : Option (ℤ × ℤ × ℤ × ℤ)
  trains : Option (List (String × TrainDict))
  best_scores : Option (List (String × ℤ))

/-- The empty game-state dictionary. -/
def StateDict.empty : StateDict :=
  ⟨none, none, none, none, none, none⟩

/-- The per-train serialization fold of `Game.get_state` lines 127-131:
every train is serialized (mutating its dirty bits), and only non-empty
dictionaries are collected. -/
def serialize_trains : List (String × Train) → List (String × TrainDict) × List (String × Train)
  | [] => ([], [])
  | (n, t) :: rest =>
    let r := t.to_dict
    let rec' := serialize_trains rest
    (if r.1.isEmpty then rec'.1 else (n, r.1) :: rec'.1, (n, r.2) :: rec'.2)

/-- `Game.get_state` (src/server/game.py lines 104-147): emits only the
field groups whose dirty bit is set and clears those bits; the `trains`
entry is present only when at least one train produced a non-empty
dictionary (and only then is the game's `trains` dirty bit cleared). -/
def Game.get_state (g : Game) : StateDict × Game :=
  let s := StateDict.empty
  let (s, g) := if g.dirty_size then
      ({ s with size := some (g.game_width, g.game_height) }, { g with dirty_size := false })
    else (s, g)
  let (s, g) := if g.dirty_cell_size then
      ({ s with cell_size := some g.cell_size }, { g with dirty_cell_size := false })
    else (s, g)
  let (s, g) := if g.dirty_passengers then
      ({ s with passengers := some g.passengers }, { g with dirty_passengers := false })
    else (s, g)
  let r := serialize_trains g.trains
  let g := { g with trains := r.2 }
  let (s, g) := if g.dirty_delivery_zone then
      ({ s with delivery_zone := some (g.delivery_zone.height, g.delivery_zone.width,
                                       g.delivery_zone.x, g.delivery_zone.y) },
       { g with dirty_delivery_zone := false })
    else (s, g)
  let (s, g) := if r.1 ≠ [] then
      ({ s with trains := some r.1 }, { g with dirty_trains := false })
    else (s, g)
  let (s, g) := if g.dirty_best_scores then
      ({ s with best_scores := some g.best_scores }, { g with dirty_best_scores := false })
    else (s, g)
  (s, g)

/-! ## Control-policy adapter (src/common/base_agent.py) -/

/-- The default value of the `timeout` parameter of `BaseAgent.__init__`
(src/common/base_agent.py line 38): `1/REFERENCE_TICK_RATE`. -/
def base_agent_timeout_default : ℚ := 1 / (REFERENCE_TICK_RATE : ℚ)

/-- The deadline actually stored by `BaseAgent.__init__` (line 61):
`self.timeout = 1  # Exceptionally overriding it to 1 second`.  The
parameter default is discarded. -/
def base_agent_timeout : ℚ := 1

/-- Modelled from the spec: `common/move.py` is absent from src.  The
decision function returns one of the four headings or the drop command. -/
inductive MoveVal
  | up
  | down
  | left
  | right
  | drop
deriving DecidableEq

/-- The command the adapter forwards to the network layer. -/
inductive AgentCommand
  | drop_request
  | direction_change (d : MoveVal)
deriving DecidableEq

/-- What the worker thread produced by the time `update_agent` stops
waiting: either the deadline expired with `get_move` still running (or it
died with an exception, leaving `_move_result` at `None`, which lines
118-120 treat the same way), or it finished with a result. -/
inductive PolicyOutcome
  | timeout
  | finished (r : Option MoveVal)

/-- The decision logic of `BaseAgent.update_agent` (src/common/base_agent.py
lines 86-135) as a function of the worker outcome: a timeout (or a `None`
result) sends nothing, `Move.DROP` sends a drop request, and any other move
is sent as a direction change (the guard on line 133 compares the `Move`
enum against the raw direction tuple stored in the state dict, which is
never equal in Python, so it never suppresses the send). -/
def update_agent (outcome : PolicyOutcome) : Option AgentCommand :=
  match outcome with
  | .timeout => none
  | .finished none => none
  | .finished (some m) =>
    match m with
    | .drop => some .drop_request
    | m => some (.direction_change m)

/-! ## The drop_wagon message handler (src/server/server.py) -/

/-- The response `Server.handle_client_message` sends back for a
`drop_wagon` action (src/server/server.py lines 638-674).  The failure
message embeds the remaining cooldown (a tick count) in its text; the
model carries the number itself. -/
inductive DropResponse
  | drop_wagon_success (cooldown : ℚ)
  | drop_wagon_failed (remaining_cooldown : ℤ)
deriving DecidableEq

/-- The `action == "drop_wagon"` branch of `Server.handle_client_message`
(src/server/server.py lines 638-674): run `Train.drop_wagon`; on success a
new `Passenger` with `value = 1` is created at the vacated cell and the
client is told the boost cooldown; on failure the client is told the
remaining cooldown from `Train.get_boost_cooldown_time` (0 when no
cooldown is active).  When the nickname has no train, nothing happens. -/
def Game.handle_drop_wagon (g : Game) (nick : String) : Game × Option DropResponse :=
  match alookup g.trains nick with
  | none => (g, none)
  | some t =>
    let r := t.drop_wagon
    let g := g.setTrain nick r.2
    match r.1 with
    | some last_wagon_position =>
      ({ g with passengers := g.passengers ++ [⟨last_wagon_position, 1⟩],
                dirty_passengers := true },
       some (.drop_wagon_success BOOST_COOLDOWN_DURATION))
    | none =>
      let remaining_cooldown :=
        if r.2.boost_cooldown_active then r.2.get_boost_cooldown_time else 0
      (g, some (.drop_wagon_failed remaining_cooldown))

/-! ## Helper lemmas -/

theorem alookup_map_set {α : Type} (l : List (String × α)) (k : String) (v : α) :
    alookup (l.map fun p => if p.1 = k then (k, v) else p) k =
      if (alookup l k).isSome then some v else none := by
  induction l with
  | nil => simp
  | cons hd tl ih =>
    obtain ⟨k0, v0⟩ := hd
    simp only [List.map_cons]
    by_cases h : k0 = k
    · subst h
      rw [show (if (k0, v0).1 = k0 then (k0, v) else (k0, v0)) = (k0, v) from if_pos rfl]
      simp [alookup]
    · rw [show (if (k0, v0).1 = k then (k, v) else (k0, v0)) = (k0, v0) from if_neg h]
      simp [alookup, h, ih]

theorem alookup_setTrain (g : Game) (nick : String) (t : Train) :
    alookup (g.setTrain nick t).trains nick =
      if (alookup g.trains nick).isSome then some t else none := by
  simp [Game.setTrain, alookup_map_set]

theorem alookup_setTrain_of_mem (g : Game) (nick : String) (t t0 : Train)
    (h : alookup g.trains nick = some t0) :
    alookup (g.setTrain nick t).trains nick = some t := by
  rw [alookup_setTrain, h]
  rfl

/-- A reference train used by the concrete witnesses: the state
`Train.__init__` builds at grid cell (100, 100). -/
def witness_train : Train := Train.init 100 100 "A" 0 60 60

/-! ## Claim theorems -/

/-- C5: for every train and every requested direction d, if d is the exact
component-wise reverse of the train's current direction, then
`Train.change_direction d` leaves both the pending direction
(`new_direction`) and the current direction (`direction`) unchanged. -/
theorem change_direction_reverse_is_noop (t : Train) (d : ℤ × ℤ)
    (h1 : d.1 = -t.direction.1) (h2 : d.2 = -t.direction.2) :
    (t.change_direction d).new_direction = t.new_direction ∧
    (t.change_direction d).direction = t.direction := by
  simp [Train.change_direction, Train.is_opposite_direction, h1, h2]

/-- Witness for C5: a freshly initialized train heads RIGHT = (1, 0), and
requesting (-1, 0) changes neither heading field. -/
theorem change_direction_reverse_is_noop_witness :
    ((-1 : ℤ), (0 : ℤ)).1 = -witness_train.direction.1 ∧
    ((-1 : ℤ), (0 : ℤ)).2 = -witness_train.direction.2 ∧
    ((witness_train.change_direction (-1, 0)).new_direction = witness_train.new_direction ∧
     (witness_train.change_direction (-1, 0)).direction = witness_train.direction) :=
  ⟨by decide, by decide,
   change_direction_reverse_is_noop witness_train (-1, 0) (by decide) (by decide)⟩

/-- C3 counterexample: the wall-clock deadline `BaseAgent.__init__` stores
is NOT `1 / ReferenceTickRate` — line 61 overrides the parameter default
with 1 second. -/
theorem base_agent_timeout_is_not_reference_based :
    base_agent_timeout ≠ base_agent_timeout_default ∧
    base_agent_timeout = 1 ∧ base_agent_timeout_default = 1 / 60 := by
  refine ⟨?_, rfl, ?_⟩ <;>
    norm_num [base_agent_timeout, base_agent_timeout_default, REFERENCE_TICK_RATE]

/-- C3 as amended: the deadline stored for the pluggable decision function
is 1 second (the 1/ReferenceTickRate default parameter is overridden), and
when the deadline expires before `get_move` returns — or `get_move` dies
leaving no result — the adapter sends nothing, so the train's heading is
left unchanged for that tick. -/
theorem update_agent_deadline_and_timeout_discard :
    base_agent_timeout = 1 ∧
    update_agent .timeout = none ∧
    update_agent (.finished none) = none :=
  ⟨rfl, rfl, rfl⟩

/-- C4 counterexample: after a death reset the train's position is the
off-grid sentinel (-1, -1), and -1 is not a multiple of the grid cell size
(CELL_SIZE = 20), so the position is NOT always an exact multiple of the
cell size. -/
theorem CELL_SIZE_eq : CELL_SIZE = 20 := by
  norm_num [CELL_SIZE, pyInt, ORIGINAL_GAME_WIDTH, ORIGINAL_GRID_NB]

theorem reset_position_breaks_grid_alignment :
    (witness_train.reset).position = (-1, -1) ∧
    CELL_SIZE = 20 ∧
    ¬ (CELL_SIZE ∣ (witness_train.reset).position.1) := by
  refine ⟨rfl, CELL_SIZE_eq, ?_⟩
  rw [CELL_SIZE_eq]
  decide

/-- C4 as amended: every position the game assigns while a train is in
play is an exact multiple of the cell size — spawn positions (both the
randomly drawn candidates and the deterministic center fallback) are grid
multiples, and one movement step preserves grid alignment on both axes —
but the death reset sets the off-grid sentinel (-1, -1), which is not a
multiple, so the invariant holds only until death. -/
theorem position_grid_alignment_amended :
    (∀ (g : Game) (draws : ℕ → ℤ × ℤ),
      g.cell_size ∣ (g.get_safe_spawn_position draws).1 ∧
      g.cell_size ∣ (g.get_safe_spawn_position draws).2) ∧
    (∀ (t : Train) (cs : ℤ), cs ∣ t.position.1 → cs ∣ t.position.2 →
      cs ∣ (t.next_position cs).1 ∧ cs ∣ (t.next_position cs).2) ∧
    (∀ t : Train, (t.reset).position = (-1, -1)) := by
  refine ⟨?_, ?_, fun t => rfl⟩
  · intro g draws
    unfold Game.get_safe_spawn_position
    generalize 0 = i
    induction 100 generalizing i with
    | zero =>
      exact ⟨dvd_mul_left _ _, dvd_mul_left _ _⟩
    | succ n ih =>
      rw [Game.spawn_search]
      split
      · exact ⟨dvd_mul_left _ _, dvd_mul_left _ _⟩
      · exact ih (i + 1)
  · intro t cs h1 h2
    exact ⟨dvd_add h1 (dvd_mul_left _ _), dvd_add h2 (dvd_mul_left _ _)⟩

/-- Witness for C4's amended theorem: the initial train at (100, 100) has
grid-aligned coordinates, and one movement step with cell size 20 keeps
both axes multiples of 20. -/
theorem position_grid_alignment_amended_witness :
    ((20 : ℤ) ∣ witness_train.position.1) ∧ ((20 : ℤ) ∣ witness_train.position.2) ∧
    ((20 : ℤ) ∣ (witness_train.next_position 20).1 ∧
     (20 : ℤ) ∣ (witness_train.next_position 20).2) :=
  ⟨by decide, by decide,
   position_grid_alignment_amended.2.1 witness_train 20 (by decide) (by decide)⟩

/-- The remaining-cooldown formula the spec states for
`Game.get_train_cooldown` (C1), written from the spec's words for
comparison: `cooldownTicks = round(cooldownSeconds × ReferenceTickRate)`,
remaining = `max(0, cooldownTicks − (currentTick − eventTick))`, reported
as seconds by dividing by `ReferenceTickRate` (= 60). -/
def spec_claimed_train_cooldown (cooldown_seconds : ℚ) (death_tick current_tick : ℤ) : ℚ :=
  let cooldownTicks : ℤ := ⌊cooldown_seconds * 60 + 1 / 2⌋
  ((max 0 (cooldownTicks - (current_tick - death_tick)) : ℤ) : ℚ) / 60

/-- A minimal game whose train "A" died at tick 0, observed at tick 0,
with the default 5-second respawn cooldown, at a chosen configured tick
rate. -/
def mkCooldownGame (rate : ℚ) : Game where
  trains := []
  passengers := []
  best_scores := []
  train_death_ticks := [("A", 0)]
  last_delivery_ticks := []
  desired_passengers := 0
  current_tick := 0
  game_width := 400
  game_height := 400
  cell_size := 20
  delivery_zone := ⟨0, 0, 0, 0⟩
  config_tick_rate := rate
  respawn_cooldown_seconds := 5
  delivery_cooldown_seconds := 1 / 10
  passenger_oracle := fun _ => (0, 0)
  oracle_idx := 0
  cooldown_notifications := []
  dirty_trains := false
  dirty_size := false
  dirty_cell_size := false
  dirty_passengers := false
  dirty_delivery_zone := false
  dirty_best_scores := false

/-- C1 counterexample: the code reports the remaining respawn cooldown by
dividing the remaining ticks by the CONFIGURED tick rate, not by
`ReferenceTickRate`.  With a 5-second cooldown, death at tick 0 and the
clock at tick 0, the spec formula gives 5 seconds, and so does the code at
tick rate 60 — but at tick rate 120 the code reports 2.5 seconds, so the
reported seconds do depend on the configured tick rate, contradicting the
claim. -/
theorem get_train_cooldown_depends_on_tick_rate :
    (mkCooldownGame 120).get_train_cooldown "A" = 5 / 2 ∧
    (mkCooldownGame 60).get_train_cooldown "A" = 5 ∧
    spec_claimed_train_cooldown 5 0 0 = 5 ∧
    (5 / 2 : ℚ) ≠ 5 := by
  refine ⟨?_, ?_, ?_, by norm_num⟩ <;>
    norm_num [Game.get_train_cooldown, mkCooldownGame, alookup,
              spec_claimed_train_cooldown, pyInt]

/-- C1 as amended: for every train with a recorded death tick, the
remaining cooldown is `max(0, cooldownTicks − (currentTick − deathTick))`
with `cooldownTicks = int(respawnCooldownSeconds × 60)` (truncating, and
with the configured-rate factors cancelling exactly), but the tick count
is converted to seconds by dividing by the CONFIGURED tick rate, so the
reported seconds scale inversely with the configured tick rate. -/
theorem get_train_cooldown_amended (g : Game) (nick : String) (dt : ℤ)
    (h : alookup g.train_death_ticks nick = some dt)
    (hr : g.config_tick_rate ≠ 0) :
    g.get_train_cooldown nick =
      ((max 0 (pyInt (g.respawn_cooldown_seconds * 60) - (g.current_tick - dt)) : ℤ) : ℚ)
        / g.config_tick_rate := by
  have hcancel : g.respawn_cooldown_seconds * g.config_tick_rate * (60 / g.config_tick_rate) =
      g.respawn_cooldown_seconds * 60 := by
    field_simp
    ring
  simp only [Game.get_train_cooldown, h, hcancel]

/-- Witness for C1's amended theorem: at tick rate 120 the code reports
exactly `max(0, int(5 × 60) − 0) / 120` seconds. -/
theorem get_train_cooldown_amended_witness :
    (mkCooldownGame 120).get_train_cooldown "A" =
      ((max 0 (pyInt ((mkCooldownGame 120).respawn_cooldown_seconds * 60) -
               ((mkCooldownGame 120).current_tick - 0)) : ℤ) : ℚ)
        / (mkCooldownGame 120).config_tick_rate :=
  get_train_cooldown_amended (mkCooldownGame 120) "A" 0 rfl (by norm_num [mkCooldownGame])

/-- A train that just performed a successful boosted drop: initialized at
(100, 100) with two trail cells, clock at tick 100, then `drop_wagon`. -/
def preDropTrain : Train :=
  { Train.init 100 100 "A" 0 60 60 with
      wagons := [(80, 100), (60, 100)], current_tick := 100 }

/-- The state right after the first drop (boost and cooldown active). -/
def postDropTrain : Train := (preDropTrain.drop_wagon).2

theorem postDropTrain_fields :
    postDropTrain.boost_cooldown_active = true ∧
    postDropTrain.current_tick = 100 ∧
    postDropTrain.start_boost_cooldown_tick = 100 ∧
    postDropTrain.reference_tick_rate = 60 ∧
    postDropTrain.wagons = [(80, 100)] ∧
    postDropTrain.alive = true :=
  ⟨rfl, rfl, rfl, rfl, rfl, rfl⟩

/-- C2 counterexample: immediately after a successful drop (elapsed 0
ticks) a second drop request fails, but the remaining cooldown the code
reports is `max(0, int(10 × 60) − 0) = 600` ticks, while the claim's
`(cooldownSeconds + boostSeconds) − elapsedSeconds` is 10.25 s = 615
reference ticks — off by 15 ticks, far more than the claimed one-tick
accuracy. -/
theorem second_drop_cooldown_misses_boost_term :
    (postDropTrain.drop_wagon).1 = none ∧
    (postDropTrain.drop_wagon).2 = postDropTrain ∧
    postDropTrain.get_boost_cooldown_time = 600 ∧
    pyInt ((BOOST_COOLDOWN_DURATION + BOOST_DURATION) * 60) -
      (postDropTrain.current_tick - postDropTrain.start_boost_cooldown_tick) = 615 ∧
    ¬ (|(600 : ℤ) - 615| ≤ 1) := by
  obtain ⟨h1, h2, h3, h4, _, _⟩ := postDropTrain_fields
  refine ⟨rfl, rfl, ?_, ?_, by decide⟩
  · rw [Train.get_boost_cooldown_time, if_pos h1, Train.get_boost_cooldown_ticks,
        h2, h3, h4]
    norm_num [BOOST_COOLDOWN_DURATION, pyInt]
  · rw [h2, h3]
    norm_num [BOOST_COOLDOWN_DURATION, BOOST_DURATION, pyInt]

/-- C2 as amended: a second drop request while the boost cooldown is
active fails (no segment dropped, train and passenger list unchanged) and
the remaining cooldown reported to the caller is
`max(0, int(cooldownSeconds × ReferenceTickRate) − elapsedTicks)` — i.e.
`cooldownSeconds − elapsedSeconds` in reference ticks, WITHOUT the
`boostSeconds` term (even though the cooldown that actually gates the next
boost lasts `cooldownSeconds + boostSeconds`). -/
theorem second_drop_fails_cooldown_reported (g : Game) (nick : String) (t : Train)
    (ht : alookup g.trains nick = some t)
    (hc : t.boost_cooldown_active = true) :
    t.drop_wagon = (none, t) ∧
    alookup (g.handle_drop_wagon nick).1.trains nick = some t ∧
    (g.handle_drop_wagon nick).1.passengers = g.passengers ∧
    (g.handle_drop_wagon nick).2 = some (.drop_wagon_failed
      (max 0 (pyInt (BOOST_COOLDOWN_DURATION * t.reference_tick_rate) -
              (t.current_tick - t.start_boost_cooldown_tick)))) := by
  have hdrop : t.drop_wagon = (none, t) := by
    rcases hgl : t.wagons.getLast? with _ | w <;>
      simp [Train.drop_wagon, hgl, hc]
  have htime : t.get_boost_cooldown_time =
      max 0 (pyInt (BOOST_COOLDOWN_DURATION * t.reference_tick_rate) -
             (t.current_tick - t.start_boost_cooldown_tick)) := by
    rw [Train.get_boost_cooldown_time, if_pos hc, Train.get_boost_cooldown_ticks]
  refine ⟨hdrop, ?_, ?_, ?_⟩ <;>
    simp [Game.handle_drop_wagon, ht, hdrop, hc, htime, Game.setTrain,
          alookup_map_set]

/-- A minimal one-train game wrapping a given train under nickname "A". -/
def mkTrainGame (t : Train) : Game :=
  { mkCooldownGame 60 with trains := [("A", t)], train_death_ticks := [] }

/-- Witness for C2's amended theorem, at the concrete post-drop state with
zero elapsed ticks: the second drop fails and the reported remaining
cooldown is 600 ticks. -/
theorem second_drop_fails_cooldown_reported_witness :
    alookup (mkTrainGame postDropTrain).trains "A" = some postDropTrain ∧
    postDropTrain.boost_cooldown_active = true ∧
    (postDropTrain.drop_wagon = (none, postDropTrain) ∧
     alookup ((mkTrainGame postDropTrain).handle_drop_wagon "A").1.trains "A" =
       some postDropTrain ∧
     ((mkTrainGame postDropTrain).handle_drop_wagon "A").1.passengers =
       (mkTrainGame postDropTrain).passengers ∧
     ((mkTrainGame postDropTrain).handle_drop_wagon "A").2 = some (.drop_wagon_failed
       (max 0 (pyInt (BOOST_COOLDOWN_DURATION * postDropTrain.reference_tick_rate) -
               (postDropTrain.current_tick - postDropTrain.start_boost_cooldown_tick))))) :=
  ⟨rfl, rfl,
   second_drop_fails_cooldown_reported (mkTrainGame postDropTrain) "A" postDropTrain rfl rfl⟩

/-- Running the boost-timer management of `Train.update` on a boosted
train with a full boost window (timer = BOOST_DURATION = 1/4 s) at the
reference rate: during the first 14 ticks only the timer decreases. -/
theorem boost_iter_le (u : Train) (hactive : u.speed_boost_active = true)
    (hrate : u.reference_tick_rate = 60) (htimer : u.speed_boost_timer = 1 / 4) :
    ∀ k : ℕ, k ≤ 14 →
      (Train.boost_timer_step)^[k] u = { u with speed_boost_timer := 1 / 4 - (k : ℚ) / 60 } := by
  intro k
  induction k with
  | zero =>
    intro _
    rw [Function.iterate_zero_apply]
    have h0 : (1 / 4 - ((0 : ℕ) : ℚ) / 60 : ℚ) = 1 / 4 := by norm_num
    rw [h0, ← htimer]
  | succ k ih =>
    intro hk
    have hk14 : k ≤ 14 := Nat.le_of_succ_le hk
    rw [Function.iterate_succ_apply', ih hk14]
    have hcond : ¬ ((1 / 4 - (k : ℚ) / 60 - 1 / 60) ≤ 0) := by
      have hk13 : (k : ℚ) ≤ 13 := by
        have : k ≤ 13 := by omega
        exact_mod_cast this
      linarith
    simp only [Train.boost_timer_step, hactive, hrate, if_true]
    rw [if_neg hcond]
    have harith : (1 / 4 - (k : ℚ) / 60 - 1 / 60) = 1 / 4 - ((k + 1 : ℕ) : ℚ) / 60 := by
      push_cast
      ring
    rw [harith]

/-- On the 15th reference tick (15 × 1/60 = 1/4 s = BOOST_DURATION) the
boost ends and the speed reverts to the stored `normal_speed`. -/
theorem boost_iter_15 (u : Train) (hactive : u.speed_boost_active = true)
    (hrate : u.reference_tick_rate = 60) (htimer : u.speed_boost_timer = 1 / 4) :
    ((Train.boost_timer_step)^[15] u).speed = u.normal_speed ∧
    ((Train.boost_timer_step)^[15] u).speed_boost_active = false := by
  have h14 := boost_iter_le u hactive hrate htimer 14 (le_refl 14)
  have : (15 : ℕ) = 14 + 1 := rfl
  rw [this, Function.iterate_succ_apply', h14]
  have hcond : (1 / 4 - ((14 : ℕ) : ℚ) / 60 - 1 / 60) ≤ 0 := by norm_num
  simp only [Train.boost_timer_step, hactive, hrate, if_true]
  rw [if_pos hcond]
  exact ⟨rfl, rfl⟩

/-- C7: a live train with a non-empty trail and no active boost or boost
cooldown that receives a drop-segment command loses exactly one trail
segment (the tail), the server creates a Passenger with value 1 at the
vacated tail cell, the speed is multiplied by the fixed boost intensity 3
for the fixed boost duration (15 reference ticks = 0.25 s) and then
reverts to the pre-boost value, and a cooldown window of
`cooldownSeconds + boostSeconds` (tick-relative: int((10 + 0.25)×60) = 615
reference ticks) begins at the current tick. -/
theorem drop_wagon_boost_scenario (g : Game) (nick : String) (t : Train)
    (ht : alookup g.trains nick = some t)
    (halive : t.alive = true)
    (hcool : t.boost_cooldown_active = false)
    (hboost : t.speed_boost_active = false)
    (hw : t.wagons ≠ [])
    (href : t.reference_tick_rate = 60) :
    (t.drop_wagon).1 = t.wagons.getLast? ∧
    (t.drop_wagon).2.wagons.length + 1 = t.wagons.length ∧
    (∃ p : Passenger, (g.handle_drop_wagon nick).1.passengers = g.passengers ++ [p] ∧
      p.value = 1 ∧ some p.position = t.wagons.getLast?) ∧
    (g.handle_drop_wagon nick).2 = some (.drop_wagon_success BOOST_COOLDOWN_DURATION) ∧
    alookup (g.handle_drop_wagon nick).1.trains nick = some (t.drop_wagon).2 ∧
    (t.drop_wagon).2.speed = t.speed * 3 ∧
    (t.drop_wagon).2.normal_speed = t.speed ∧
    (t.drop_wagon).2.speed_boost_active = true ∧
    (t.drop_wagon).2.speed_boost_timer = BOOST_DURATION ∧
    (t.drop_wagon).2.boost_cooldown_active = true ∧
    (t.drop_wagon).2.start_boost_cooldown_tick = t.current_tick ∧
    (∀ k : ℕ, k ≤ 14 → ((Train.boost_timer_step)^[k] (t.drop_wagon).2).speed = t.speed * 3) ∧
    ((Train.boost_timer_step)^[15] (t.drop_wagon).2).speed = t.speed ∧
    ((Train.boost_timer_step)^[15] (t.drop_wagon).2).speed_boost_active = false ∧
    (∀ e : ℤ,
      ({ (t.drop_wagon).2 with current_tick := t.current_tick + e } : Train).cooldown_step.boost_cooldown_active =
        if e ≥ 615 then false else true) := by
  rcases hgl : t.wagons.getLast? with _ | w
  · exact absurd (List.getLast?_eq_none_iff.mp hgl) hw
  · have hdrop : t.drop_wagon = (some w,
        { t with wagons := t.wagons.dropLast,
                 dirty_wagons := true,
                 normal_speed := t.speed,
                 speed := t.speed * BOOST_INTENSITY,
                 speed_boost_active := true,
                 speed_boost_timer := BOOST_DURATION,
                 boost_cooldown_active := true,
                 start_boost_cooldown_tick := t.current_tick,
                 dirty_boost_cooldown_active := true }) := by
      simp [Train.drop_wagon, halive, hcool, hboost, hgl, ACTIVATE_SPEED_BOOST]
    have hlen : t.wagons.length ≠ 0 := by
      intro h0
      exact hw (List.length_eq_zero.mp h0)
    have hint : BOOST_INTENSITY = 3 := rfl
    have hiter := boost_iter_le (t.drop_wagon).2
      (by rw [hdrop]) (by rw [hdrop]; exact href) (by rw [hdrop]; rfl)
    have hiter15 := boost_iter_15 (t.drop_wagon).2
      (by rw [hdrop]) (by rw [hdrop]; exact href) (by rw [hdrop]; rfl)
    refine ⟨by rw [hdrop], ?_, ?_, ?_, ?_, by rw [hdrop, hint], by rw [hdrop],
           by rw [hdrop], by rw [hdrop], by rw [hdrop], by rw [hdrop], ?_, ?_, ?_, ?_⟩
    · rw [hdrop]
      simp only [List.length_dropLast]
      omega
    · refine ⟨⟨w, 1⟩, ?_, rfl, by simp [hgl]⟩
      simp [Game.handle_drop_wagon, ht, hdrop, Game.setTrain]
    · simp [Game.handle_drop_wagon, ht, hdrop]
    · simp only [Game.handle_drop_wagon, ht, hdrop]
      exact alookup_setTrain_of_mem _ nick _ t ht
    · intro k hk
      rw [hiter k hk, hdrop, hint]
    · rw [hiter15.1, hdrop]
    · exact hiter15.2
    · intro e
      have hreq : pyInt ((BOOST_COOLDOWN_DURATION + BOOST_DURATION) * (60 : ℚ)) = 615 := by
        norm_num [BOOST_COOLDOWN_DURATION, BOOST_DURATION, pyInt]
      rw [hdrop]
      simp only [Train.cooldown_step, href, hreq, if_true]
      have helapsed : t.current_tick + e - t.current_tick = e := by ring
      rw [helapsed]
      by_cases he : e ≥ 615
      · rw [if_pos he, if_pos he]
      · rw [if_neg he, if_neg he]

/-- Witness for C7 at the concrete pre-drop train (trail of length 2, no
boost, no cooldown) inside a one-train game. -/
theorem drop_wagon_boost_scenario_witness :
    preDropTrain.alive = true ∧
    preDropTrain.boost_cooldown_active = false ∧
    preDropTrain.speed_boost_active = false ∧
    preDropTrain.wagons ≠ [] ∧
    ((preDropTrain.drop_wagon).1 = preDropTrain.wagons.getLast? ∧
     (preDropTrain.drop_wagon).2.wagons.length + 1 = preDropTrain.wagons.length ∧
     (∃ p : Passenger,
       ((mkTrainGame preDropTrain).handle_drop_wagon "A").1.passengers =
         (mkTrainGame preDropTrain).passengers ++ [p] ∧
       p.value = 1 ∧ some p.position = preDropTrain.wagons.getLast?) ∧
     ((mkTrainGame preDropTrain).handle_drop_wagon "A").2 =
       some (.drop_wagon_success BOOST_COOLDOWN_DURATION) ∧
     alookup ((mkTrainGame preDropTrain).handle_drop_wagon "A").1.trains "A" =
       some (preDropTrain.drop_wagon).2 ∧
     (preDropTrain.drop_wagon).2.speed = preDropTrain.speed * 3 ∧
     (preDropTrain.drop_wagon).2.normal_speed = preDropTrain.speed ∧
     (preDropTrain.drop_wagon).2.speed_boost_active = true ∧
     (preDropTrain.drop_wagon).2.speed_boost_timer = BOOST_DURATION ∧
     (preDropTrain.drop_wagon).2.boost_cooldown_active = true ∧
     (preDropTrain.drop_wagon).2.start_boost_cooldown_tick = preDropTrain.current_tick ∧
     (∀ k : ℕ, k ≤ 14 →
       ((Train.boost_timer_step)^[k] (preDropTrain.drop_wagon).2).speed =
         preDropTrain.speed * 3) ∧
     ((Train.boost_timer_step)^[15] (preDropTrain.drop_wagon).2).speed = preDropTrain.speed ∧
     ((Train.boost_timer_step)^[15] (preDropTrain.drop_wagon).2).speed_boost_active = false ∧
     (∀ e : ℤ,
       ({ (preDropTrain.drop_wagon).2 with
            current_tick := preDropTrain.current_tick + e } : Train).cooldown_step.boost_cooldown_active =
         if e ≥ 615 then false else true)) :=
  ⟨rfl, rfl, rfl, by decide,
   drop_wagon_boost_scenario (mkTrainGame preDropTrain) "A" preDropTrain
     rfl rfl rfl rfl (by decide) rfl⟩

/-- Helper for C9: if every candidate drawn from attempt `i` on is unsafe,
the bounded search falls through to the center. -/
theorem spawn_search_all_unsafe (g : Game) (draws : ℕ → ℤ × ℤ) :
    ∀ (fuel i : ℕ),
      (∀ j, i ≤ j → j < i + fuel →
        g.is_position_safe ((draws j).1 * g.cell_size) ((draws j).2 * g.cell_size) = false) →
      g.spawn_search draws i fuel = g.center_spawn := by
  intro fuel
  induction fuel with
  | zero => intro i _; rfl
  | succ n ih =>
    intro i h
    rw [Game.spawn_search]
    rw [h i (le_refl i) (by omega)]
    simp only [Bool.false_eq_true, if_false]
    exact ih (i + 1) (fun j hj1 hj2 => h j (by omega) (by omega))

/-- C9: `Game.get_safe_spawn_position` never fails: when all 100 random
placement attempts are unsafe it returns the deterministic center of the
map, whose coordinates are grid-aligned (multiples of the cell size). -/
theorem get_safe_spawn_position_never_fails (g : Game) (draws : ℕ → ℤ × ℤ)
    (hall : ∀ i, i < 100 →
      g.is_position_safe ((draws i).1 * g.cell_size) ((draws i).2 * g.cell_size) = false) :
    g.get_safe_spawn_position draws = g.center_spawn ∧
    g.cell_size ∣ (g.center_spawn).1 ∧ g.cell_size ∣ (g.center_spawn).2 := by
  refine ⟨?_, dvd_mul_left _ _, dvd_mul_left _ _⟩
  exact spawn_search_all_unsafe g draws 100 0 (fun j _ hj => hall j (by omega))

/-- Witness for C9: with every draw at grid index (0, 0) the candidate
(0, 0) is inside the border safety margin, hence unsafe, and the spawn
falls back to the center (200, 200). -/
theorem get_safe_spawn_position_never_fails_witness :
    (mkCooldownGame 60).is_position_safe 0 0 = false ∧
    ((mkCooldownGame 60).get_safe_spawn_position (fun _ => (0, 0)) =
       (mkCooldownGame 60).center_spawn ∧
     (mkCooldownGame 60).cell_size ∣ ((mkCooldownGame 60).center_spawn).1 ∧
     (mkCooldownGame 60).cell_size ∣ ((mkCooldownGame 60).center_spawn).2) :=
  ⟨rfl, get_safe_spawn_position_never_fails (mkCooldownGame 60) (fun _ => (0, 0))
    (fun _ _ => rfl)⟩

/-- C10: if a train with an empty trail sits in the delivery zone with its
delivery cooldown elapsed, the tick's delivery check changes nothing: the
train (hence its score), the best-scores table and the last-delivery ticks
are all left as they were — delivery is a silent no-op when there is no
segment to pop. -/
theorem delivery_empty_trail_is_noop (g : Game) (nick : String) (t : Train)
    (ht : alookup g.trains nick = some t)
    (hw : t.wagons = [])
    (hin : g.delivery_zone.contains t.position = true)
    (hcd : (alookup g.last_delivery_ticks nick) = none ∨
           g.current_tick - ((alookup g.last_delivery_ticks nick).getD 0) ≥
             g.get_delivery_cooldown_ticks) :
    alookup (g.delivery_check nick).trains nick = some t ∧
    (g.delivery_check nick).best_scores = g.best_scores ∧
    (g.delivery_check nick).last_delivery_ticks = g.last_delivery_ticks := by
  have hpop : t.pop_wagon = (none, t) := by
    simp [Train.pop_wagon, hw]
  have hd : g.delivery_check nick = g.setTrain nick t := by
    simp only [Game.delivery_check, ht, hin, if_true, if_pos hcd, hpop]
  rw [hd]
  exact ⟨alookup_setTrain_of_mem g nick t t ht, rfl, rfl⟩

/-- An idle train with an empty trail parked at (100, 100). -/
def idleTrain : Train := Train.init 100 100 "A" 0 60 60

/-- A game whose delivery zone covers the whole map, holding `idleTrain`. -/
def mkDeliveryGame : Game :=
  { mkTrainGame idleTrain with delivery_zone := ⟨0, 0, 400, 400⟩ }

/-- Witness for C10: the idle train is inside the all-map delivery zone
with no recorded delivery tick, and the delivery check leaves everything
unchanged. -/
theorem delivery_empty_trail_is_noop_witness :
    alookup mkDeliveryGame.trains "A" = some idleTrain ∧
    idleTrain.wagons = [] ∧
    mkDeliveryGame.delivery_zone.contains idleTrain.position = true ∧
    alookup mkDeliveryGame.last_delivery_ticks "A" = none ∧
    (alookup (mkDeliveryGame.delivery_check "A").trains "A" = some idleTrain ∧
     (mkDeliveryGame.delivery_check "A").best_scores = mkDeliveryGame.best_scores ∧
     (mkDeliveryGame.delivery_check "A").last_delivery_ticks =
       mkDeliveryGame.last_delivery_ticks) :=
  ⟨rfl, rfl, rfl, rfl,
   delivery_empty_trail_is_noop mkDeliveryGame "A" idleTrain rfl rfl rfl (Or.inl rfl)⟩

/-- The dirty bits `Train.to_dict` reads (and clears): all seven field
groups of the train serializer. -/
def Train.diff_clean (t : Train) : Prop :=
  t.dirty_position = false ∧ t.dirty_wagons = false ∧ t.dirty_direction = false ∧
  t.dirty_score = false ∧ t.dirty_color = false ∧ t.dirty_alive = false ∧
  t.dirty_boost_cooldown_active = false

/-- `Train.to_dict` always leaves the train with every serializer dirty
bit cleared (bits that were set are cleared in their branch; bits that
were clear stay clear). -/
theorem to_dict_snd_eq (t : Train) :
    (t.to_dict).2 = { t with dirty_position := false, dirty_wagons := false,
                             dirty_direction := false, dirty_score := false,
                             dirty_color := false, dirty_alive := false,
                             dirty_boost_cooldown_active := false } := by
  obtain ⟨nk, pos, w, nd, dir, pd, al, sc, bs, col, mt, sp, lp, tr, rtr, ct,
          sba, sbt, bca, sbct, bct, ns, d1, d2, d3, d4, d5, d6, d7, d8⟩ := t
  unfold Train.to_dict
  by_cases h1 : d1 = true <;> by_cases h2 : d2 = true <;>
    by_cases h3 : d3 = true <;> by_cases h4 : d4 = true <;>
      by_cases h5 : d5 = true <;> by_cases h6 : d6 = true <;>
        by_cases h7 : d7 = true <;>
          simp_all

theorem to_dict_snd_clean (t : Train) : (t.to_dict).2.diff_clean := by
  rw [to_dict_snd_eq]
  exact ⟨rfl, rfl, rfl, rfl, rfl, rfl, rfl⟩

/-- On a train with no set dirty bit, `to_dict` emits nothing and changes
nothing. -/
theorem to_dict_of_clean (t : Train) (h : t.diff_clean) :
    t.to_dict = (TrainDict.empty, t) := by
  obtain ⟨h1, h2, h3, h4, h5, h6, h7⟩ := h
  unfold Train.to_dict
  simp [h1, h2, h3, h4, h5, h6, h7]

theorem serialize_trains_snd (l : List (String × Train)) :
    (serialize_trains l).2 = l.map (fun p => (p.1, (p.2.to_dict).2)) := by
  induction l with
  | nil => rfl
  | cons hd tl ih => simp [serialize_trains, ih]

/-- Serializing a roster of clean trains emits nothing and leaves the
roster unchanged. -/
theorem serialize_trains_of_clean (l : List (String × Train))
    (h : ∀ p ∈ l, p.2.diff_clean) :
    serialize_trains l = ([], l) := by
  induction l with
  | nil => rfl
  | cons hd tl ih =>
    have hhd := h hd (List.mem_cons_self hd tl)
    have htl := ih (fun p hp => h p (List.mem_cons_of_mem hd hp))
    simp [serialize_trains, to_dict_of_clean hd.2 hhd, htl, TrainDict.isEmpty]

/-- After `Game.get_state`, every game-level dirty bit the serializer
reads is cleared, and the stored trains are the serializer-mutated ones. -/
theorem get_state_snd_facts (g : Game) :
    (g.get_state).2.dirty_size = false ∧
    (g.get_state).2.dirty_cell_size = false ∧
    (g.get_state).2.dirty_passengers = false ∧
    (g.get_state).2.dirty_delivery_zone = false ∧
    (g.get_state).2.dirty_best_scores = false ∧
    (g.get_state).2.trains = (serialize_trains g.trains).2 := by
  unfold Game.get_state
  by_cases b1 : g.dirty_size <;> by_cases b2 : g.dirty_cell_size <;>
    by_cases b3 : g.dirty_passengers <;> by_cases b4 : g.dirty_delivery_zone <;>
      by_cases b5 : (serialize_trains g.trains).1 = [] <;>
        by_cases b6 : g.dirty_best_scores <;>
          simp_all

/-- C8: calling the dirty-state serializer twice with no mutation in
between returns the empty structure the second time — the first call
cleared every dirty bit it read, on the game and on every train. -/
theorem get_state_twice_returns_empty (g : Game) :
    ((g.get_state).2.get_state).1 = StateDict.empty ∧
    (∀ p ∈ (g.get_state).2.trains, p.2.diff_clean) := by
  obtain ⟨b1, b2, b3, b4, b5, btr⟩ := get_state_snd_facts g
  have hclean : ∀ p ∈ (g.get_state).2.trains, p.2.diff_clean := by
    rw [btr, serialize_trains_snd]
    intro p hp
    obtain ⟨q, hq, rfl⟩ := List.mem_map.mp hp
    exact to_dict_snd_clean q.2
  refine ⟨?_, hclean⟩
  have hser : serialize_trains ((g.get_state).2.trains) = ([], (g.get_state).2.trains) :=
    serialize_trains_of_clean _ hclean
  conv_lhs => rw [Game.get_state]
  simp [b1, b2, b3, b4, b5, hser]

/-! ## Head-on collisions (C6) -/

/-- A passenger-pickup pass over passengers none of which sit on the
train's cell leaves the game unchanged. -/
theorem pickup_go_no_match (g : Game) (nick : String) (t : Train)
    (ht : alookup g.trains nick = some t)
    (hno : ∀ p ∈ g.passengers, t.position ≠ p.position) :
    ∀ fuel i, g.pickup_go nick i fuel = g := by
  intro fuel
  induction fuel with
  | zero => intro i; rfl
  | succ n ih =>
    intro i
    rw [Game.pickup_go]
    split
    case isTrue h =>
      have hne : ¬(t.position = (g.passengers.get ⟨i, h⟩).position) :=
        hno _ (List.get_mem g.passengers i h)
      simp only [ht, hne, if_false]
      exact ih (i + 1)
    case isFalse h => rfl

theorem pickup_loop_no_match (g : Game) (nick : String) (t : Train)
    (ht : alookup g.trains nick = some t)
    (hno : ∀ p ∈ g.passengers, t.position ≠ p.position) :
    g.pickup_loop nick = g :=
  pickup_go_no_match g nick t ht hno _ 0

/-- A delivery region of zero extent contains no cell. -/
theorem zone0_contains_false (p : ℤ × ℤ) :
    (⟨0, 0, 0, 0⟩ : DeliveryZone).contains p = false := by
  simp only [DeliveryZone.contains, decide_eq_false_iff_not]
  omega

/-- The delivery check is the identity when the game's delivery region has
zero extent. -/
theorem delivery_check_zone0 (g : Game) (nick : String)
    (hz : g.delivery_zone = ⟨0, 0, 0, 0⟩) :
    g.delivery_check nick = g := by
  rw [Game.delivery_check]
  rcases h : alookup g.trains nick with _ | t
  · rfl
  · rw [hz]
    simp [zone0_contains_false]

@[simp] theorem add_passengers_zero (g : Game) : g.add_passengers 0 = g := rfl

@[simp] theorem add_passengers_succ (g : Game) (n : ℕ) :
    g.add_passengers (n + 1) = (g.add_oracle_passenger).add_passengers n := rfl

/-- A train of the head-on family: placed at (x, y), heading (dx, dy),
with its movement counter one tick short of the movement threshold so
that the next update moves it. -/
def mkCollisionTrain (nick : String) (x y dx dy : ℤ) : Train :=
  { Train.init x y nick 0 60 60 with
      direction := (dx, dy), new_direction := (dx, dy),
      previous_direction := (dx, dy), move_timer := 5 }

/-- A two-train game of the head-on family (zero-extent delivery region,
no passengers yet, tick counter at 1). -/
def mkCollisionGame (t1 t2 : String × Train) (oracle : ℕ → ℤ × ℤ) (W H : ℤ) : Game where
  trains := [t1, t2]
  passengers := []
  best_scores := []
  train_death_ticks := []
  last_delivery_ticks := []
  desired_passengers := 0
  current_tick := 1
  game_width := W
  game_height := H
  cell_size := 20
  delivery_zone := ⟨0, 0, 0, 0⟩
  config_tick_rate := 60
  respawn_cooldown_seconds := 5
  delivery_cooldown_seconds := 1 / 10
  passenger_oracle := oracle
  oracle_idx := 0
  cooldown_notifications := []
  dirty_trains := false
  dirty_size := false
  dirty_cell_size := false
  dirty_passengers := false
  dirty_delivery_zone := false
  dirty_best_scores := false

/-- The outcome C6 asserts for one roster order: both trains of the
head-on pair end the collision pass dead, and both are notified of a death
with reason collision_with_train. -/
def both_die_with_reason (g : Game) : Prop :=
  (alookup g.check_collisions.trains "A").map Train.alive = some false ∧
  (alookup g.check_collisions.trains "B").map Train.alive = some false ∧
  ("A", (5 : ℚ), "collision_with_train") ∈ g.check_collisions.cooldown_notifications ∧
  ("B", (5 : ℚ), "collision_with_train") ∈ g.check_collisions.cooldown_notifications

set_option maxHeartbeats 4000000 in
/-- C6: two live trains that move on the same tick into the same cell from
opposite directions (A at (x, y) heading (dx, dy), B two cells ahead
heading back) both end the tick dead, and both deaths are notified with
reason collision_with_train; the outcome is the same for both update
orders of the roster. -/
theorem head_on_collision_both_die (x y W H dx dy : ℤ) (oracle : ℕ → ℤ × ℤ)
    (hd : (dx, dy) = ((1 : ℤ), (0 : ℤ)) ∨ (dx, dy) = (-1, 0) ∨
          (dx, dy) = (0, 1) ∨ (dx, dy) = (0, -1))
    (horacle : ∀ n, oracle n ≠ (-1, -1))
    (hx0 : 0 ≤ x + dx * 20) (hxW : x + dx * 20 < W)
    (hy0 : 0 ≤ y + dy * 20) (hyH : y + dy * 20 < H) :
    both_die_with_reason (mkCollisionGame ("A", mkCollisionTrain "A" x y dx dy)
      ("B", mkCollisionTrain "B" (x + dx * 40) (y + dy * 40) (-dx) (-dy)) oracle W H) ∧
    both_die_with_reason (mkCollisionGame
      ("B", mkCollisionTrain "B" (x + dx * 40) (y + dy * 40) (-dx) (-dy))
      ("A", mkCollisionTrain "A" x y dx dy) oracle W H) := by
  have hno2 : ∀ n : ℕ, ((-1 : ℤ), (-1 : ℤ)) ≠ oracle n := fun n => Ne.symm (horacle n)
  rcases hd with h | h | h | h <;>
    rw [Prod.ext_iff] at h <;> obtain ⟨h1, h2⟩ := h <;>
      (simp only [] at h1 h2) <;> subst h1 <;> subst h2
  · have f1 : ¬((x : ℤ) = x + 20) := by omega
    have f2 : ¬((x : ℤ) + 20 = x + 40) := by omega
    have f3 : (x : ℤ) + 40 + -20 = x + 20 := by omega
    have f4 : ¬((x : ℤ) + 40 = x + 20) := by omega
    have f5 : ¬((x : ℤ) + 20 = x) := by omega
    have fb1 : ¬((x : ℤ) + 20 < 0) := by omega
    have fb2 : ¬(W ≤ (x : ℤ) + 20) := by omega
    have fb3 : ¬((y : ℤ) < 0) := by omega
    have fb4 : ¬(H ≤ (y : ℤ)) := by omega
    constructor <;>
      simp [both_die_with_reason, Game.check_collisions, Game.train_update, mkCollisionGame, mkCollisionTrain,
        Train.init, alookup,
        Train.boost_timer_step, Train.cooldown_step, Train.set_direction, Game.train_move,
        Train.next_position, Train.set_position, Game.setTrain, Game.check_collisions_with_trains,
        Game.collide_loop, Game.handle_train_death, Game.check_out_of_bounds,
        Game.send_cooldown, Game.update_passengers_count, Game.contains_train,
        Game.add_oracle_passenger, aset, aerase, Train.set_alive, Train.reset,
        Game.pickup_loop, Game.pickup_go, Game.delivery_check, Game.get_delivery_cooldown_ticks,
        DeliveryZone.contains, Train.pop_wagon, TRAINS_PER_PASSENGER,
        INITIAL_SPEED, REFERENCE_TICK_RATE, MOVE_RIGHT, hno2,
        (by norm_num : (60 : ℚ) / 10 ≤ 6),
        (by norm_num : (60 : ℚ) / 10 ≤ 5 + 1),
        f1, f2, f3, f4, f5, fb1, fb2, fb3, fb4]
  · have f1 : ¬((x : ℤ) = x + -20) := by omega
    have f2 : ¬((x : ℤ) + -20 = x + -40) := by omega
    have f3 : (x : ℤ) + -40 + 20 = x + -20 := by omega
    have f4 : ¬((x : ℤ) + -40 = x + -20) := by omega
    have f5 : ¬((x : ℤ) + -20 = x) := by omega
    have fb1 : ¬((x : ℤ) + -20 < 0) := by omega
    have fb2 : ¬(W ≤ (x : ℤ) + -20) := by omega
    have fb3 : ¬((y : ℤ) < 0) := by omega
    have fb4 : ¬(H ≤ (y : ℤ)) := by omega
    constructor <;>
      simp [both_die_with_reason, Game.check_collisions, Game.train_update, mkCollisionGame, mkCollisionTrain,
        Train.init, alookup,
        Train.boost_timer_step, Train.cooldown_step, Train.set_direction, Game.train_move,
        Train.next_position, Train.set_position, Game.setTrain, Game.check_collisions_with_trains,
        Game.collide_loop, Game.handle_train_death, Game.check_out_of_bounds,
        Game.send_cooldown, Game.update_passengers_count, Game.contains_train,
        Game.add_oracle_passenger, aset, aerase, Train.set_alive, Train.reset,
        Game.pickup_loop, Game.pickup_go, Game.delivery_check, Game.get_delivery_cooldown_ticks,
        DeliveryZone.contains, Train.pop_wagon, TRAINS_PER_PASSENGER,
        INITIAL_SPEED, REFERENCE_TICK_RATE, MOVE_RIGHT, hno2,
        (by norm_num : (60 : ℚ) / 10 ≤ 6),
        (by norm_num : (60 : ℚ) / 10 ≤ 5 + 1),
        f1, f2, f3, f4, f5, fb1, fb2, fb3, fb4]
  · have f1 : ¬((y : ℤ) = y + 20) := by omega
    have f2 : ¬((y : ℤ) + 20 = y + 40) := by omega
    have f3 : (y : ℤ) + 40 + -20 = y + 20 := by omega
    have f4 : ¬((y : ℤ) + 40 = y + 20) := by omega
    have f5 : ¬((y : ℤ) + 20 = y) := by omega
    have fb1 : ¬((y : ℤ) + 20 < 0) := by omega
    have fb2 : ¬(H ≤ (y : ℤ) + 20) := by omega
    have fb3 : ¬((x : ℤ) < 0) := by omega
    have fb4 : ¬(W ≤ (x : ℤ)) := by omega
    constructor <;>
      simp [both_die_with_reason, Game.check_collisions, Game.train_update, mkCollisionGame, mkCollisionTrain,
        Train.init, alookup,
        Train.boost_timer_step, Train.cooldown_step, Train.set_direction, Game.train_move,
        Train.next_position, Train.set_position, Game.setTrain, Game.check_collisions_with_trains,
        Game.collide_loop, Game.handle_train_death, Game.check_out_of_bounds,
        Game.send_cooldown, Game.update_passengers_count, Game.contains_train,
        Game.add_oracle_passenger, aset, aerase, Train.set_alive, Train.reset,
        Game.pickup_loop, Game.pickup_go, Game.delivery_check, Game.get_delivery_cooldown_ticks,
        DeliveryZone.contains, Train.pop_wagon, TRAINS_PER_PASSENGER,
        INITIAL_SPEED, REFERENCE_TICK_RATE, MOVE_RIGHT, hno2,
        (by norm_num : (60 : ℚ) / 10 ≤ 6),
        (by norm_num : (60 : ℚ) / 10 ≤ 5 + 1),
        f1, f2, f3, f4, f5, fb1, fb2, fb3, fb4]
  · have f1 : ¬((y : ℤ) = y + -20) := by omega
    have f2 : ¬((y : ℤ) + -20 = y + -40) := by omega
    have f3 : (y : ℤ) + -40 + 20 = y + -20 := by omega
    have f4 : ¬((y : ℤ) + -40 = y + -20) := by omega
    have f5 : ¬((y : ℤ) + -20 = y) := by omega
    have fb1 : ¬((y : ℤ) + -20 < 0) := by omega
    have fb2 : ¬(H ≤ (y : ℤ) + -20) := by omega
    have fb3 : ¬((x : ℤ) < 0) := by omega
    have fb4 : ¬(W ≤ (x : ℤ)) := by omega
    constructor <;>
      simp [both_die_with_reason, Game.check_collisions, Game.train_update, mkCollisionGame, mkCollisionTrain,
        Train.init, alookup,
        Train.boost_timer_step, Train.cooldown_step, Train.set_direction, Game.train_move,
        Train.next_position, Train.set_position, Game.setTrain, Game.check_collisions_with_trains,
        Game.collide_loop, Game.handle_train_death, Game.check_out_of_bounds,
        Game.send_cooldown, Game.update_passengers_count, Game.contains_train,
        Game.add_oracle_passenger, aset, aerase, Train.set_alive, Train.reset,
        Game.pickup_loop, Game.pickup_go, Game.delivery_check, Game.get_delivery_cooldown_ticks,
        DeliveryZone.contains, Train.pop_wagon, TRAINS_PER_PASSENGER,
        INITIAL_SPEED, REFERENCE_TICK_RATE, MOVE_RIGHT, hno2,
        (by norm_num : (60 : ℚ) / 10 ≤ 6),
        (by norm_num : (60 : ℚ) / 10 ≤ 5 + 1),
        f1, f2, f3, f4, f5, fb1, fb2, fb3, fb4]

/-- Witness for C6: A at (100, 100) heading right, B at (140, 100) heading
left, on a 400 by 400 map; both roster orders kill both trains with reason
collision_with_train. -/
theorem head_on_collision_both_die_witness :
    ((0 : ℤ) ≤ 100 + 1 * 20) ∧ ((100 : ℤ) + 1 * 20 < 400) ∧
    ((fun _ : ℕ => ((0 : ℤ), (0 : ℤ))) 0 ≠ (-1, -1)) ∧
    (both_die_with_reason (mkCollisionGame ("A", mkCollisionTrain "A" 100 100 1 0)
        ("B", mkCollisionTrain "B" (100 + 1 * 40) (100 + 0 * 40) (-1) (-0))
        (fun _ => (0, 0)) 400 400) ∧
     both_die_with_reason (mkCollisionGame
        ("B", mkCollisionTrain "B" (100 + 1 * 40) (100 + 0 * 40) (-1) (-0))
        ("A", mkCollisionTrain "A" 100 100 1 0)
        (fun _ => (0, 0)) 400 400)) :=
  ⟨by decide, by decide, by decide,
   head_on_collision_both_die 100 100 400 400 1 0 (fun _ => (0, 0))
     (Or.inl rfl) (fun _ => show ((0 : ℤ), (0 : ℤ)) ≠ (-1, -1) by decide)
     (by decide) (by decide) (by decide) (by decide)⟩

end ILikeTrains
